import Mathlib

/-!
Shallow embedding of the VMX enablement / VMCS lifecycle core of the
`hypervisor-rs` repository (files `src/hypervisor/src/error.rs`,
`src/hypervisor/src/intel/vmcs.rs`, `src/hypervisor/src/intel/vcpu.rs`,
`src/hypervisor/src/intel/vmxon.rs`), together with theorems settling the
frozen claims about it.

Machine integers are modelled as `Nat` with explicit masking where the
source truncates (`as u32`, `& 0x7FFF_FFFF`, `& SELECTOR_MASK`).  Hardware
state read by the code (control registers, MSRs, task register, descriptor
resolution) is passed in explicitly as an environment, and the privileged
VMX instructions are recorded in an event trace so that ordering and
"no hardware instruction executed" claims can be stated.
-/

set_option linter.unusedVariables false

namespace Hv

/-- Error enumeration from `src/hypervisor/src/error.rs` (`HypervisorError`).
The `MemoryAllocationFailed` variant carries an allocation-error payload in
the source; the payload is irrelevant to every claim and is dropped here. -/
inductive HypervisorError where
  | CPUUnsupported
  | VMXUnsupported
  | VMXBIOSLock
  | MemoryAllocationFailed
  | VirtualToPhysicalAddressFailed
  | VMXONFailed
  | VMXOFFFailed
  | VMCLEARFailed
  | VMPTRLDFailed
  | VMREADFailed
  | VMWRITEFailed
  | VMLAUNCHFailed
  | ProcessorSwitchFailed
  | VcpuIsNone
  deriving DecidableEq, Repr

/-- The VMCS region header from `src/hypervisor/src/intel/vmcs.rs` (`struct Vmcs`).
The source struct is page sized with a reserved byte array after the two
header words; the reserved padding is never read or written by the embedded
code and is omitted. -/
structure Vmcs where
  revision_id : Nat
  abort_indicator : Nat
  deriving DecidableEq, Repr

/-- Events recording the privileged operations and region mutations issued by
the embedded code, in program order. -/
inductive HwStep where
  | writeRevisionId (value : Nat)
  | vmclear (pa : Nat)
  | vmptrld (pa : Nat)
  | vmlaunch
  deriving DecidableEq, Repr

/-- Modelled from the spec: the privileged instruction primitives
`support::vmclear` / `support::vmptrld` live in
`src/hypervisor/src/intel/support.rs`, which is not under `src/`.  Per the
spec's external-interface section each primitive "returns success/failure per
the hardware carry/zero-flag convention".  This structure carries the outcome
of the clear and load operations for one `Vmcs::setup` execution. -/
structure VmxOutcomes where
  clearOk : Bool
  loadOk : Bool
  deriving DecidableEq, Repr

/-- From `Vmcs::get_vmcs_revision_id` in `src/hypervisor/src/intel/vmcs.rs`:
`(msr::rdmsr(msr::IA32_VMX_BASIC) as u32) & 0x7FFF_FFFF`.  The MSR value is a
parameter; `as u32` is `% 2 ^ 32`. -/
def get_vmcs_revision_id (vmxBasicMsr : Nat) : Nat :=
  (vmxBasicMsr % 2 ^ 32) &&& 0x7FFFFFFF

/-- Clearing bit 31 of a `u32` value, as `revision_id.set_bit(31, false)` does
in the source (`bitfield::BitMut`). -/
def clearBit31 (x : Nat) : Nat :=
  x &&& 0x7FFFFFFF

/-- From `Vmcs::setup` in `src/hypervisor/src/intel/vmcs.rs`.  The physical
address obtained from `PhysicalAddress::pa_from_va` is the parameter `pa`
(the translator is an external collaborator per the spec).  Returns the
final region contents, the `Result`, and the trace of operations performed.
The source issues `vmclear(..)` and `vmptrld(..)` as plain statements: their
outcomes (`hw`) are not inspected and do not influence the returned value. -/
def Vmcs.setup (pa vmxBasicMsr : Nat) (vmcs_region : Vmcs) (hw : VmxOutcomes) :
    Vmcs × Except HypervisorError Unit × List HwStep :=
  if pa = 0 then
    (vmcs_region, Except.error HypervisorError.VirtualToPhysicalAddressFailed, [])
  else
    let rev := clearBit31 (get_vmcs_revision_id vmxBasicMsr)
    let region' : Vmcs := { vmcs_region with revision_id := rev }
    (region', Except.ok (),
      [HwStep.writeRevisionId rev, HwStep.vmclear pa, HwStep.vmptrld pa])

/-- Claim C1 (amended): the error type defines distinct `VMCLEARFailed` and
`VMPTRLDFailed` kinds, but `Vmcs::setup` never returns either of them: it
issues the clear and load operations without inspecting their outcomes, and
returns success whenever the address translation yields a nonzero physical
address, regardless of whether the clear or the load operation failed. -/
theorem c1_setup_ignores_clear_load_outcomes
    (pa vmxBasicMsr : Nat) (r : Vmcs) (hw : VmxOutcomes) (hpa : pa ≠ 0) :
    HypervisorError.VMCLEARFailed ≠ HypervisorError.VMPTRLDFailed ∧
    (Vmcs.setup pa vmxBasicMsr r hw).2.1 = Except.ok () ∧
    (Vmcs.setup pa vmxBasicMsr r hw).2.1 ≠
      Except.error HypervisorError.VMCLEARFailed ∧
    (Vmcs.setup pa vmxBasicMsr r hw).2.1 ≠
      Except.error HypervisorError.VMPTRLDFailed := by
  refine ⟨by decide, ?_, ?_, ?_⟩ <;> simp [Vmcs.setup, hpa]

/-- Witness for C1: a concrete execution (physical address 1, both the clear
and the load operation failing) on which the amended claim is checked. -/
theorem c1_witness :
    (Vmcs.setup 1 0 ⟨0, 0⟩ ⟨false, false⟩).2.1 = Except.ok () :=
  (c1_setup_ignores_clear_load_outcomes 1 0 ⟨0, 0⟩ ⟨false, false⟩
    (by decide)).2.1

/-- Counterexample to claim C1 as stated: an execution in which the clear
operation fails (`clearOk = false`) yet `Vmcs.setup` returns success, not the
dedicated VMCLEAR-failure kind; likewise an execution in which the load
operation fails yet setup returns success. -/
theorem c1_counterexample :
    (Vmcs.setup 1 0 ⟨0, 0⟩ ⟨false, true⟩).2.1 = Except.ok () ∧
    (Vmcs.setup 1 0 ⟨0, 0⟩ ⟨true, false⟩).2.1 = Except.ok () := by
  constructor <;> rfl

/-- Claim C6: `Vmcs::setup` returns the address-translation-failed error if
and only if the physical address is 0, and in that case it returns before
writing the revision identifier and before issuing the clear or load
operation, leaving the region unchanged and the trace empty. -/
theorem c6_setup_null_translation
    (pa vmxBasicMsr : Nat) (r : Vmcs) (hw : VmxOutcomes) :
    ((Vmcs.setup pa vmxBasicMsr r hw).2.1 =
       Except.error HypervisorError.VirtualToPhysicalAddressFailed ↔ pa = 0) ∧
    (pa = 0 → (Vmcs.setup pa vmxBasicMsr r hw).1 = r ∧
      (Vmcs.setup pa vmxBasicMsr r hw).2.2 = []) := by
  by_cases hpa : pa = 0 <;> simp [Vmcs.setup, hpa]

/-- Witness for C6: at physical address 0 the error is returned and the
region `⟨7, 3⟩` is unchanged with an empty trace. -/
theorem c6_witness :
    (Vmcs.setup 0 5 ⟨7, 3⟩ ⟨true, true⟩).2.1 =
      Except.error HypervisorError.VirtualToPhysicalAddressFailed ∧
    (Vmcs.setup 0 5 ⟨7, 3⟩ ⟨true, true⟩).1 = ⟨7, 3⟩ :=
  ⟨(c6_setup_null_translation 0 5 ⟨7, 3⟩ ⟨true, true⟩).1.mpr rfl,
   ((c6_setup_null_translation 0 5 ⟨7, 3⟩ ⟨true, true⟩).2 rfl).1⟩

/-- Claim C7: after a successful `Vmcs::setup` the region's `revision_id`
equals the low 32 bits of the IA32_VMX_BASIC MSR with bit 31 forced to 0, and
in particular bit 31 of the stored revision identifier is 0. -/
theorem c7_revision_id
    (pa vmxBasicMsr : Nat) (r : Vmcs) (hw : VmxOutcomes) (hpa : pa ≠ 0) :
    (Vmcs.setup pa vmxBasicMsr r hw).1.revision_id =
      (vmxBasicMsr % 2 ^ 32) &&& 0x7FFFFFFF ∧
    Nat.testBit (Vmcs.setup pa vmxBasicMsr r hw).1.revision_id 31 = false := by
  have hmask : ∀ x : Nat, Nat.testBit (x &&& 0x7FFFFFFF) 31 = false := by
    intro x
    rw [Nat.testBit_and]
    simp only [Bool.and_eq_false_eq_eq_false_or_eq_false]
    right
    decide
  constructor
  · simp [Vmcs.setup, hpa, clearBit31, get_vmcs_revision_id, Nat.and_assoc]
  · simp only [Vmcs.setup, hpa, if_neg hpa, clearBit31]
    exact hmask _

/-- Witness for C7: with MSR value `0x180000005` (bit 31 of the low word set)
and physical address 1, the stored revision identifier is 5 and its bit 31
is 0. -/
theorem c7_witness :
    (Vmcs.setup 1 0x180000005 ⟨0, 0⟩ ⟨true, true⟩).1.revision_id =
      (0x180000005 % 2 ^ 32) &&& 0x7FFFFFFF ∧
    Nat.testBit (Vmcs.setup 1 0x180000005 ⟨0, 0⟩ ⟨true, true⟩).1.revision_id 31
      = false :=
  c7_revision_id 1 0x180000005 ⟨0, 0⟩ ⟨true, true⟩ (by decide)

/-- Claim C8: in every execution of `Vmcs::setup` whose trace contains the
load operation, the trace is strictly ordered: the revision-identifier write
comes first, then the clear operation on the region's physical address, and
only afterwards the load operation on the same address; setup never issues a
load without a preceding clear. -/
theorem c8_setup_ordering
    (pa vmxBasicMsr : Nat) (r : Vmcs) (hw : VmxOutcomes) (j pa2 : Nat)
    (hj : ((Vmcs.setup pa vmxBasicMsr r hw).2.2).get? j =
      some (HwStep.vmptrld pa2)) :
    ∃ i k rv, i < k ∧ k < j ∧
      ((Vmcs.setup pa vmxBasicMsr r hw).2.2).get? i =
        some (HwStep.writeRevisionId rv) ∧
      ((Vmcs.setup pa vmxBasicMsr r hw).2.2).get? k =
        some (HwStep.vmclear pa2) := by
  by_cases hpa : pa = 0
  · simp [Vmcs.setup, hpa] at hj
  · simp only [Vmcs.setup, if_neg hpa] at hj ⊢
    match j, hj with
    | 2, hj =>
      simp only [List.get?] at hj ⊢
      cases hj
      exact ⟨0, 1, _, by decide, by decide, rfl, rfl⟩

/-- Witness for C8: in the concrete execution with physical address 9 the
load operation sits at index 2 of the trace, and the theorem produces the
preceding revision write and clear. -/
theorem c8_witness :
    ∃ i k rv, i < k ∧ k < 2 ∧
      ((Vmcs.setup 9 0 ⟨0, 0⟩ ⟨true, true⟩).2.2).get? i =
        some (HwStep.writeRevisionId rv) ∧
      ((Vmcs.setup 9 0 ⟨0, 0⟩ ⟨true, true⟩).2.2).get? k =
        some (HwStep.vmclear 9) :=
  c8_setup_ordering 9 0 ⟨0, 0⟩ ⟨true, true⟩ 2 9 rfl

/-- Per-processor virtualization state from
`src/hypervisor/src/intel/vcpu.rs` (`struct Vcpu`): the processor index and
the flag recording whether virtualization has been activated. -/
structure Vcpu where
  index : Nat
  is_virtualized : Bool
  deriving DecidableEq, Repr

/-- From `Vcpu::new` in `src/hypervisor/src/intel/vcpu.rs`: despite the
fallible `Result` signature it always returns `Ok` with the given index and
the flag cleared. -/
def Vcpu.new (index : Nat) : Except HypervisorError Vcpu :=
  Except.ok { index := index, is_virtualized := false }

/-- From `Vcpu::id` in `src/hypervisor/src/intel/vcpu.rs`. -/
def Vcpu.id (v : Vcpu) : Nat :=
  v.index

/-- Modelled from the spec: the VMX session type (`Vmx::new` / `Vmx::init`
in `src/hypervisor/src/intel/vmx.rs`) and the entry trampoline
(`vmexit::launch_vm`) are not under `src/`.  Per the spec's session
lifecycle, `new` constructs with a captured context and has no hardware side
effects yet, and `init` performs the fallible VMXON / VMCS setup sequence;
both report dedicated error kinds on failure.  This structure carries the
outcome of the two fallible steps and the trace of hardware operations
`init` performs up to its outcome, for one virtualization attempt. -/
structure VmxSpec where
  newResult : Except HypervisorError Unit
  initResult : Except HypervisorError Unit
  initSteps : List HwStep
  deriving Repr

/-- From `Vcpu::virtualize_cpu` in `src/hypervisor/src/intel/vcpu.rs`.  When
the flag is not yet set, the source sets `self.is_virtualized = true` first,
then runs `Vmx::new(context)?`, `vmx.init()?` and `launch_vm()`; when the
flag is already set the body is skipped and `Ok(())` is returned.  Returns
the updated `Vcpu`, the `Result`, and the trace of hardware operations. -/
def Vcpu.virtualize_cpu (v : Vcpu) (vmx : VmxSpec) :
    Vcpu × Except HypervisorError Unit × List HwStep :=
  if !v.is_virtualized then
    let v' : Vcpu := { v with is_virtualized := true }
    match vmx.newResult with
    | Except.error e => (v', Except.error e, [])
    | Except.ok _ =>
      match vmx.initResult with
      | Except.error e => (v', Except.error e, vmx.initSteps)
      | Except.ok _ => (v', Except.ok (), vmx.initSteps ++ [HwStep.vmlaunch])
  else
    (v, Except.ok (), [])

/-- Claim C2 (amended): if `Vmx::new` or `Vmx::init` fails during
`Vcpu::virtualize_cpu` on a not-yet-virtualized `Vcpu`, the call returns
that error, but `is_virtualized` was set to `true` at the start of the
attempt and is therefore `true` afterwards; a subsequent call is hence a
no-op returning success and does not re-run the initialization. -/
theorem c2_failed_attempt_sets_flag
    (v : Vcpu) (vmx : VmxSpec) (e : HypervisorError)
    (hv : v.is_virtualized = false)
    (hfail : vmx.newResult = Except.error e ∨
      (vmx.newResult = Except.ok () ∧ vmx.initResult = Except.error e)) :
    (v.virtualize_cpu vmx).2.1 = Except.error e ∧
    (v.virtualize_cpu vmx).1.is_virtualized = true ∧
    ∀ vmx2 : VmxSpec,
      ((v.virtualize_cpu vmx).1).virtualize_cpu vmx2 =
        ((v.virtualize_cpu vmx).1, Except.ok (), []) := by
  rcases hfail with hnew | ⟨hnew, hinit⟩
  · simp [Vcpu.virtualize_cpu, hv, hnew]
  · simp [Vcpu.virtualize_cpu, hv, hnew, hinit]

/-- Witness for C2: processor 0, fresh `Vcpu`, with `Vmx::new` failing with
the VMXON-failure kind; the flag is `true` after the failed call. -/
theorem c2_witness :
    ((Vcpu.mk 0 false).virtualize_cpu
        ⟨Except.error HypervisorError.VMXONFailed, Except.ok (), []⟩).2.1 =
      Except.error HypervisorError.VMXONFailed ∧
    ((Vcpu.mk 0 false).virtualize_cpu
        ⟨Except.error HypervisorError.VMXONFailed, Except.ok (), []⟩).1.is_virtualized
      = true :=
  ⟨(c2_failed_attempt_sets_flag (Vcpu.mk 0 false)
      ⟨Except.error HypervisorError.VMXONFailed, Except.ok (), []⟩
      HypervisorError.VMXONFailed rfl (Or.inl rfl)).1,
   (c2_failed_attempt_sets_flag (Vcpu.mk 0 false)
      ⟨Except.error HypervisorError.VMXONFailed, Except.ok (), []⟩
      HypervisorError.VMXONFailed rfl (Or.inl rfl)).2.1⟩

/-- Counterexample to claim C2 as stated: on a fresh `Vcpu` (index 0) whose
`Vmx::new` step fails with the VMXON-failure kind, the call returns the
error but `is_virtualized` is `true` afterwards, not `false`, and the retry
call is a no-op returning success with an empty trace instead of re-running
the initialization. -/
theorem c2_counterexample :
    ((Vcpu.mk 0 false).virtualize_cpu
        ⟨Except.error HypervisorError.VMXONFailed, Except.ok (), []⟩).1.is_virtualized
      ≠ false ∧
    (((Vcpu.mk 0 false).virtualize_cpu
          ⟨Except.error HypervisorError.VMXONFailed, Except.ok (), []⟩).1).virtualize_cpu
        ⟨Except.error HypervisorError.VMXONFailed, Except.ok (), []⟩ =
      (Vcpu.mk 0 true, Except.ok (), []) := by
  constructor <;> simp [Vcpu.virtualize_cpu]

/-- Claim C5: on a `Vcpu` whose flag is already `true`, `virtualize_cpu`
returns success with an empty hardware trace and leaves the `Vcpu`
unchanged; hence two consecutive calls both return success and the second
performs nothing. -/
theorem c5_virtualize_idempotent
    (v : Vcpu) (vmx vmx2 : VmxSpec) (hv : v.is_virtualized = true) :
    v.virtualize_cpu vmx = (v, Except.ok (), []) ∧
    ((v.virtualize_cpu vmx).1).virtualize_cpu vmx2 =
      (v, Except.ok (), []) := by
  constructor <;> simp [Vcpu.virtualize_cpu, hv]

/-- Witness for C5: a concrete already-virtualized `Vcpu` (index 3) on which
both consecutive calls return success, with no hardware step and no field
change. -/
theorem c5_witness :
    (Vcpu.mk 3 true).virtualize_cpu ⟨Except.ok (), Except.ok (), []⟩ =
      (Vcpu.mk 3 true, Except.ok (), []) ∧
    (((Vcpu.mk 3 true).virtualize_cpu
        ⟨Except.ok (), Except.ok (), []⟩).1).virtualize_cpu
        ⟨Except.ok (), Except.ok (), []⟩ =
      (Vcpu.mk 3 true, Except.ok (), []) :=
  c5_virtualize_idempotent (Vcpu.mk 3 true) ⟨Except.ok (), Except.ok (), []⟩
    ⟨Except.ok (), Except.ok (), []⟩ rfl

/-- Claim C10 (amended): `Vcpu::new(index)` always returns `Ok` despite its
fallible signature, and the constructed `Vcpu` satisfies `id() = index` and
`is_virtualized() = false`; the flag remains `false` only until the first
`virtualize_cpu` call on the instance, which sets it to `true` whether or
not the initialization succeeds. -/
theorem c10_new_always_ok (n : Nat) (vmx : VmxSpec) :
    Vcpu.new n = Except.ok (Vcpu.mk n false) ∧
    (Vcpu.mk n false).id = n ∧
    (Vcpu.mk n false).is_virtualized = false ∧
    ((Vcpu.mk n false).virtualize_cpu vmx).1.is_virtualized = true := by
  refine ⟨rfl, rfl, rfl, ?_⟩
  rcases vmx with ⟨hnew, hinit, steps⟩
  cases hnew <;> cases hinit <;> simp [Vcpu.virtualize_cpu]

/-- Counterexample to claim C10 as stated: the `Vcpu` built by
`Vcpu::new(7)` undergoes a `virtualize_cpu` call whose `Vmx::init` step
fails, so no successful call has happened, yet `is_virtualized` is `true`
afterwards, refuting that the flag stays `false` until the first successful
call. -/
theorem c10_counterexample :
    Vcpu.new 7 = Except.ok (Vcpu.mk 7 false) ∧
    ((Vcpu.mk 7 false).virtualize_cpu
        ⟨Except.ok (), Except.error HypervisorError.VMPTRLDFailed, []⟩).2.1 =
      Except.error HypervisorError.VMPTRLDFailed ∧
    ((Vcpu.mk 7 false).virtualize_cpu
        ⟨Except.ok (), Except.error HypervisorError.VMPTRLDFailed, []⟩).1.is_virtualized
      = true := by
  refine ⟨rfl, ?_, ?_⟩ <;> simp [Vcpu.virtualize_cpu]

/-- The five control categories passed to the control-adjustment function,
as used by `Vmcs::setup_vmcs_control_fields` in
`src/hypervisor/src/intel/vmcs.rs` (`VmxControl`). -/
inductive VmxControl where
  | PinBased
  | ProcessorBased
  | ProcessorBased2
  | VmEntry
  | VmExit
  deriving DecidableEq, Repr

/-- Capability reporting for one control category: the allowed-1 mask and
the mandatory-1 mask the processor reports for it. -/
structure VmxCapability where
  allowed_ones : Nat
  mandatory_ones : Nat
  deriving DecidableEq, Repr

/-- Modelled from the spec: `adjust_vmx_controls` lives in
`src/hypervisor/src/intel/controls.rs`, which is not under `src/`.  Per the
spec's control-adjustment contract and data-model invariant, the function
consults the capability masks of the given category and computes
`final = (requested | mandatory_ones) & allowed_ones`; it is pure and total
(it never fails).  The per-category capability reporting is the parameter
`caps`. -/
def adjust_vmx_controls (caps : VmxControl → VmxCapability)
    (control : VmxControl) (requested : Nat) : Nat :=
  (requested ||| (caps control).mandatory_ones) &&& (caps control).allowed_ones

/-- Claim C4: for every requested mask and every category,
`adjust_vmx_controls` returns exactly
`(requested | mandatory_ones) & allowed_ones`; it never contains a bit
outside `allowed_ones`, and — given the defining property of capability
masks, that every mandatory-1 bit is also an allowed-1 bit — it never lacks
a bit of `mandatory_ones`.  Purity and totality hold by construction: the
function is a total Lean function on `Nat`. -/
theorem c4_adjust_vmx_controls
    (caps : VmxControl → VmxCapability) (control : VmxControl)
    (requested : Nat)
    (hcap : (caps control).mandatory_ones &&& (caps control).allowed_ones =
      (caps control).mandatory_ones) :
    adjust_vmx_controls caps control requested =
      (requested ||| (caps control).mandatory_ones) &&&
        (caps control).allowed_ones ∧
    adjust_vmx_controls caps control requested &&& (caps control).allowed_ones
      = adjust_vmx_controls caps control requested ∧
    (caps control).mandatory_ones &&& adjust_vmx_controls caps control requested
      = (caps control).mandatory_ones := by
  refine ⟨rfl, ?_, ?_⟩
  · apply Nat.eq_of_testBit_eq
    intro i
    simp [adjust_vmx_controls, Nat.testBit_and, Nat.testBit_or,
      Bool.and_assoc]
  · apply Nat.eq_of_testBit_eq
    intro i
    have h := congrArg (fun x => Nat.testBit x i) hcap
    simp only [Nat.testBit_and] at h
    simp only [adjust_vmx_controls, Nat.testBit_and, Nat.testBit_or]
    cases hm : Nat.testBit (caps control).mandatory_ones i with
    | false => simp
    | true =>
      rw [hm] at h
      simp at h
      simp [h]

/-- Witness for C4: capability fixture with `allowed_ones = 0xFF` and
`mandatory_ones = 0x0F` (well formed: `0x0F &&& 0xFF = 0x0F`), requested
mask `0x123`. -/
theorem c4_witness :
    (0x0F : Nat) &&& 0xFF = 0x0F ∧
    adjust_vmx_controls (fun _ => ⟨0xFF, 0x0F⟩) VmxControl.PinBased 0x123 =
      ((0x123 : Nat) ||| 0x0F) &&& 0xFF ∧
    adjust_vmx_controls (fun _ => ⟨0xFF, 0x0F⟩) VmxControl.PinBased 0x123 &&&
      0xFF =
      adjust_vmx_controls (fun _ => ⟨0xFF, 0x0F⟩) VmxControl.PinBased 0x123 ∧
    (0x0F : Nat) &&&
      adjust_vmx_controls (fun _ => ⟨0xFF, 0x0F⟩) VmxControl.PinBased 0x123 =
      0x0F :=
  ⟨by decide,
   c4_adjust_vmx_controls (fun _ => ⟨0xFF, 0x0F⟩) VmxControl.PinBased 0x123
     (by decide)⟩

/-- A descriptor-table register (base and limit), as used through
`x86::dtables` by the embedded code. -/
structure DescTableReg where
  base : Nat
  limit : Nat
  deriving DecidableEq, Repr

/-- The `DescriptorTables` collaborator (its defining module
`intel::descriptor` is external to the excerpt): the GDTR and IDTR values
the population code reads. -/
structure DescriptorTables where
  gdtr : DescTableReg
  idtr : DescTableReg
  deriving DecidableEq, Repr

/-- The result of descriptor resolution
(`SegmentDescriptor::from_selector`): base address, limit and access
rights of a segment.  The resolver itself is an external collaborator per
the spec and is a parameter of the environment. -/
structure SegmentDescriptor where
  base_address : Nat
  segment_limit : Nat
  access_rights : Nat
  deriving DecidableEq, Repr

/-- One 128-bit vector register of the captured context, as a low/high pair
of 64-bit halves (`wdk_sys` `M128A`). -/
structure XmmRegister where
  Low : Nat
  High : Nat
  deriving DecidableEq, Repr

/-- The captured execution context (`wdk_sys::_CONTEXT`), restricted to the
fields the embedded code reads: debug register 7, stack/instruction
pointers, flags, the six segment selectors, the general-purpose registers
and the sixteen vector registers. -/
structure Context where
  Dr7 : Nat
  Rsp : Nat
  Rip : Nat
  EFlags : Nat
  SegCs : Nat
  SegSs : Nat
  SegDs : Nat
  SegEs : Nat
  SegFs : Nat
  SegGs : Nat
  Rax : Nat
  Rbx : Nat
  Rcx : Nat
  Rdx : Nat
  Rdi : Nat
  Rsi : Nat
  Rbp : Nat
  R8 : Nat
  R9 : Nat
  R10 : Nat
  R11 : Nat
  R12 : Nat
  R13 : Nat
  R14 : Nat
  R15 : Nat
  Xmm0 : XmmRegister
  Xmm1 : XmmRegister
  Xmm2 : XmmRegister
  Xmm3 : XmmRegister
  Xmm4 : XmmRegister
  Xmm5 : XmmRegister
  Xmm6 : XmmRegister
  Xmm7 : XmmRegister
  Xmm8 : XmmRegister
  Xmm9 : XmmRegister
  Xmm10 : XmmRegister
  Xmm11 : XmmRegister
  Xmm12 : XmmRegister
  Xmm13 : XmmRegister
  Xmm14 : XmmRegister
  Xmm15 : XmmRegister
  deriving DecidableEq, Repr

/-- Ambient hardware state read by the population code: control registers,
LDTR/TR selectors, the MSRs it reads, and the descriptor-resolution
collaborator (`SegmentDescriptor::from_selector` over a descriptor-table
register). -/
structure HostEnv where
  cr0 : Nat
  cr3 : Nat
  cr4 : Nat
  ldtr : Nat
  tr : Nat
  fsBaseMsr : Nat
  gsBaseMsr : Nat
  debugctlMsr : Nat
  sysenterCsMsr : Nat
  sysenterEspMsr : Nat
  sysenterEipMsr : Nat
  resolve : Nat → DescTableReg → SegmentDescriptor

/-- The software register shadow (`vmlaunch::GuestRegisters`); its defining
file is not under `src/`, so the structure is declared with exactly the
fields the code in `src/hypervisor/src/intel/vmcs.rs` assigns: the sixteen
vector registers (as low/high pairs, `[u64; 2]` in the source) and the
general-purpose registers other than RSP/RIP. -/
structure GuestRegisters where
  xmm0 : Nat × Nat
  xmm1 : Nat × Nat
  xmm2 : Nat × Nat
  xmm3 : Nat × Nat
  xmm4 : Nat × Nat
  xmm5 : Nat × Nat
  xmm6 : Nat × Nat
  xmm7 : Nat × Nat
  xmm8 : Nat × Nat
  xmm9 : Nat × Nat
  xmm10 : Nat × Nat
  xmm11 : Nat × Nat
  xmm12 : Nat × Nat
  xmm13 : Nat × Nat
  xmm14 : Nat × Nat
  xmm15 : Nat × Nat
  rax : Nat
  rbx : Nat
  rcx : Nat
  rdx : Nat
  rdi : Nat
  rsi : Nat
  rbp : Nat
  r8 : Nat
  r9 : Nat
  r10 : Nat
  r11 : Nat
  r12 : Nat
  r13 : Nat
  r14 : Nat
  r15 : Nat
  deriving DecidableEq, Repr

namespace guest

/-- VMCS guest-state field encodings from the external `x86` crate
(Intel SDM Appendix B); they serve as distinct tags for the written
fields. -/
def ES_SELECTOR : Nat := 0x800
def CS_SELECTOR : Nat := 0x802
def SS_SELECTOR : Nat := 0x804
def DS_SELECTOR : Nat := 0x806
def FS_SELECTOR : Nat := 0x808
def GS_SELECTOR : Nat := 0x80A
def LDTR_SELECTOR : Nat := 0x80C
def TR_SELECTOR : Nat := 0x80E
def LINK_PTR_FULL : Nat := 0x2800
def IA32_DEBUGCTL_FULL : Nat := 0x2802
def ES_LIMIT : Nat := 0x4800
def CS_LIMIT : Nat := 0x4802
def SS_LIMIT : Nat := 0x4804
def DS_LIMIT : Nat := 0x4806
def FS_LIMIT : Nat := 0x4808
def GS_LIMIT : Nat := 0x480A
def LDTR_LIMIT : Nat := 0x480C
def TR_LIMIT : Nat := 0x480E
def GDTR_LIMIT : Nat := 0x4810
def IDTR_LIMIT : Nat := 0x4812
def ES_ACCESS_RIGHTS : Nat := 0x4814
def CS_ACCESS_RIGHTS : Nat := 0x4816
def SS_ACCESS_RIGHTS : Nat := 0x4818
def DS_ACCESS_RIGHTS : Nat := 0x481A
def FS_ACCESS_RIGHTS : Nat := 0x481C
def GS_ACCESS_RIGHTS : Nat := 0x481E
def LDTR_ACCESS_RIGHTS : Nat := 0x4820
def TR_ACCESS_RIGHTS : Nat := 0x4822
def IA32_SYSENTER_CS : Nat := 0x482A
def CR0 : Nat := 0x6800
def CR3 : Nat := 0x6802
def CR4 : Nat := 0x6804
def ES_BASE : Nat := 0x6806
def CS_BASE : Nat := 0x6808
def SS_BASE : Nat := 0x680A
def DS_BASE : Nat := 0x680C
def FS_BASE : Nat := 0x680E
def GS_BASE : Nat := 0x6810
def LDTR_BASE : Nat := 0x6812
def TR_BASE : Nat := 0x6814
def GDTR_BASE : Nat := 0x6816
def IDTR_BASE : Nat := 0x6818
def DR7 : Nat := 0x681A
def RSP : Nat := 0x681C
def RIP : Nat := 0x681E
def RFLAGS : Nat := 0x6820
def IA32_SYSENTER_ESP : Nat := 0x6824
def IA32_SYSENTER_EIP : Nat := 0x6826

end guest

namespace host

/-- VMCS host-state field encodings from the external `x86` crate. -/
def ES_SELECTOR : Nat := 0xC00
def CS_SELECTOR : Nat := 0xC02
def SS_SELECTOR : Nat := 0xC04
def DS_SELECTOR : Nat := 0xC06
def FS_SELECTOR : Nat := 0xC08
def GS_SELECTOR : Nat := 0xC0A
def TR_SELECTOR : Nat := 0xC0C
def IA32_SYSENTER_CS : Nat := 0x4C00
def CR0 : Nat := 0x6C00
def CR3 : Nat := 0x6C02
def CR4 : Nat := 0x6C04
def FS_BASE : Nat := 0x6C06
def GS_BASE : Nat := 0x6C08
def TR_BASE : Nat := 0x6C0A
def GDTR_BASE : Nat := 0x6C0C
def IDTR_BASE : Nat := 0x6C0E
def IA32_SYSENTER_ESP : Nat := 0x6C10
def IA32_SYSENTER_EIP : Nat := 0x6C12

end host

/-- From `Vmcs::setup_guest_registers_state` in
`src/hypervisor/src/intel/vmcs.rs`.  Returns the list of `vmwrite`
operations (field encoding paired with the written value) in program order,
and the final contents of the register shadow.  The source assigns every
field of the shadow, so the result record lists them all; it has no failure
path (the Lean function is total and returns no `Except`). -/
def Vmcs.setup_guest_registers_state (env : HostEnv) (context : Context)
    (guest_descriptor_table : DescriptorTables)
    (guest_registers : GuestRegisters) :
    List (Nat × Nat) × GuestRegisters :=
  ([ (guest.CR0, env.cr0), (guest.CR3, env.cr3), (guest.CR4, env.cr4),
     (guest.DR7, context.Dr7),
     (guest.RSP, context.Rsp), (guest.RIP, context.Rip),
     (guest.RFLAGS, context.EFlags),
     (guest.CS_SELECTOR, context.SegCs), (guest.SS_SELECTOR, context.SegSs),
     (guest.DS_SELECTOR, context.SegDs), (guest.ES_SELECTOR, context.SegEs),
     (guest.FS_SELECTOR, context.SegFs), (guest.GS_SELECTOR, context.SegGs),
     (guest.LDTR_SELECTOR, env.ldtr), (guest.TR_SELECTOR, env.tr),
     (guest.CS_BASE,
       (env.resolve context.SegCs guest_descriptor_table.gdtr).base_address),
     (guest.SS_BASE,
       (env.resolve context.SegSs guest_descriptor_table.gdtr).base_address),
     (guest.DS_BASE,
       (env.resolve context.SegDs guest_descriptor_table.gdtr).base_address),
     (guest.ES_BASE,
       (env.resolve context.SegEs guest_descriptor_table.gdtr).base_address),
     (guest.FS_BASE, env.fsBaseMsr), (guest.GS_BASE, env.gsBaseMsr),
     (guest.LDTR_BASE,
       (env.resolve env.ldtr guest_descriptor_table.gdtr).base_address),
     (guest.TR_BASE,
       (env.resolve env.tr guest_descriptor_table.gdtr).base_address),
     (guest.CS_LIMIT,
       (env.resolve context.SegCs guest_descriptor_table.gdtr).segment_limit),
     (guest.SS_LIMIT,
       (env.resolve context.SegSs guest_descriptor_table.gdtr).segment_limit),
     (guest.DS_LIMIT,
       (env.resolve context.SegDs guest_descriptor_table.gdtr).segment_limit),
     (guest.ES_LIMIT,
       (env.resolve context.SegEs guest_descriptor_table.gdtr).segment_limit),
     (guest.FS_LIMIT,
       (env.resolve context.SegFs guest_descriptor_table.gdtr).segment_limit),
     (guest.GS_LIMIT,
       (env.resolve context.SegGs guest_descriptor_table.gdtr).segment_limit),
     (guest.LDTR_LIMIT,
       (env.resolve env.ldtr guest_descriptor_table.gdtr).segment_limit),
     (guest.TR_LIMIT,
       (env.resolve env.tr guest_descriptor_table.gdtr).segment_limit),
     (guest.CS_ACCESS_RIGHTS,
       (env.resolve context.SegCs guest_descriptor_table.gdtr).access_rights),
     (guest.SS_ACCESS_RIGHTS,
       (env.resolve context.SegSs guest_descriptor_table.gdtr).access_rights),
     (guest.DS_ACCESS_RIGHTS,
       (env.resolve context.SegDs guest_descriptor_table.gdtr).access_rights),
     (guest.ES_ACCESS_RIGHTS,
       (env.resolve context.SegEs guest_descriptor_table.gdtr).access_rights),
     (guest.FS_ACCESS_RIGHTS,
       (env.resolve context.SegFs guest_descriptor_table.gdtr).access_rights),
     (guest.GS_ACCESS_RIGHTS,
       (env.resolve context.SegGs guest_descriptor_table.gdtr).access_rights),
     (guest.LDTR_ACCESS_RIGHTS,
       (env.resolve env.ldtr guest_descriptor_table.gdtr).access_rights),
     (guest.TR_ACCESS_RIGHTS,
       (env.resolve env.tr guest_descriptor_table.gdtr).access_rights),
     (guest.GDTR_BASE, guest_descriptor_table.gdtr.base),
     (guest.IDTR_BASE, guest_descriptor_table.idtr.base),
     (guest.GDTR_LIMIT, guest_descriptor_table.gdtr.limit),
     (guest.IDTR_LIMIT, guest_descriptor_table.idtr.limit),
     (guest.IA32_DEBUGCTL_FULL, env.debugctlMsr),
     (guest.IA32_SYSENTER_CS, env.sysenterCsMsr),
     (guest.IA32_SYSENTER_ESP, env.sysenterEspMsr),
     (guest.IA32_SYSENTER_EIP, env.sysenterEipMsr),
     (guest.LINK_PTR_FULL, 0xFFFFFFFFFFFFFFFF) ],
   { xmm0 := (context.Xmm0.Low, context.Xmm0.High),
     xmm1 := (context.Xmm1.Low, context.Xmm1.High),
     xmm2 := (context.Xmm2.Low, context.Xmm2.High),
     xmm3 := (context.Xmm3.Low, context.Xmm3.High),
     xmm4 := (context.Xmm4.Low, context.Xmm4.High),
     xmm5 := (context.Xmm5.Low, context.Xmm5.High),
     xmm6 := (context.Xmm6.Low, context.Xmm6.High),
     xmm7 := (context.Xmm7.Low, context.Xmm7.High),
     xmm8 := (context.Xmm8.Low, context.Xmm8.High),
     xmm9 := (context.Xmm9.Low, context.Xmm9.High),
     xmm10 := (context.Xmm10.Low, context.Xmm10.High),
     xmm11 := (context.Xmm11.Low, context.Xmm11.High),
     xmm12 := (context.Xmm12.Low, context.Xmm12.High),
     xmm13 := (context.Xmm13.Low, context.Xmm13.High),
     xmm14 := (context.Xmm14.Low, context.Xmm14.High),
     xmm15 := (context.Xmm15.Low, context.Xmm15.High),
     rax := context.Rax, rbx := context.Rbx, rcx := context.Rcx,
     rdx := context.Rdx, rdi := context.Rdi, rsi := context.Rsi,
     rbp := context.Rbp, r8 := context.R8, r9 := context.R9,
     r10 := context.R10, r11 := context.R11, r12 := context.R12,
     r13 := context.R13, r14 := context.R14, r15 := context.R15 })

/-- The host selector mask from `Vmcs::setup_host_registers_state`
(`const SELECTOR_MASK: u16 = 0xF8`). -/
def SELECTOR_MASK : Nat := 0xF8

/-- From `Vmcs::setup_host_registers_state` in
`src/hypervisor/src/intel/vmcs.rs`.  Returns the list of `vmwrite`
operations in program order.  Host RSP/RIP are not written here (they are
set in `launch_vm`), matching the source comment. -/
def Vmcs.setup_host_registers_state (env : HostEnv) (context : Context)
    (host_descriptor_table : DescriptorTables) : List (Nat × Nat) :=
  [ (host.CR0, env.cr0), (host.CR3, env.cr3), (host.CR4, env.cr4),
    (host.CS_SELECTOR, context.SegCs &&& SELECTOR_MASK),
    (host.SS_SELECTOR, context.SegSs &&& SELECTOR_MASK),
    (host.DS_SELECTOR, context.SegDs &&& SELECTOR_MASK),
    (host.ES_SELECTOR, context.SegEs &&& SELECTOR_MASK),
    (host.FS_SELECTOR, context.SegFs &&& SELECTOR_MASK),
    (host.GS_SELECTOR, context.SegGs &&& SELECTOR_MASK),
    (host.TR_SELECTOR, env.tr &&& SELECTOR_MASK),
    (host.FS_BASE, env.fsBaseMsr), (host.GS_BASE, env.gsBaseMsr),
    (host.TR_BASE,
      (env.resolve env.tr host_descriptor_table.gdtr).base_address),
    (host.GDTR_BASE, host_descriptor_table.gdtr.base),
    (host.IDTR_BASE, host_descriptor_table.idtr.base),
    (host.IA32_SYSENTER_CS, env.sysenterCsMsr),
    (host.IA32_SYSENTER_ESP, env.sysenterEspMsr),
    (host.IA32_SYSENTER_EIP, env.sysenterEipMsr) ]

/-- The projection of a captured context onto the fields that
`setup_guest_registers_state` feeds into VMCS writes (DR7, RSP, RIP, flags
and the six segment selectors); the general-purpose and vector registers
are deliberately outside this projection. -/
def Context.vmcsInputs (c : Context) : List Nat :=
  [c.Dr7, c.Rsp, c.Rip, c.EFlags,
   c.SegCs, c.SegSs, c.SegDs, c.SegEs, c.SegFs, c.SegGs]

/-- Claim C9: for every captured context, `setup_guest_registers_state`
writes the all-ones 64-bit value to the VMCS link-pointer field, copies the
sixteen vector registers and the general-purpose registers RAX, RBX, RCX,
RDX, RDI, RSI, RBP and R8 through R15 from the context into the
`GuestRegisters` shadow, and writes none of those registers into any VMCS
field: the VMCS write list depends only on the `vmcsInputs` projection of
the context (so two contexts differing only in shadowed registers produce
identical writes).  The function is total and returns no error. -/
theorem c9_guest_state_population (env : HostEnv) (c1 c2 : Context)
    (dt : DescriptorTables) (gr : GuestRegisters)
    (hvis : c1.vmcsInputs = c2.vmcsInputs) :
    (guest.LINK_PTR_FULL, 0xFFFFFFFFFFFFFFFF) ∈
      (Vmcs.setup_guest_registers_state env c1 dt gr).1 ∧
    (Vmcs.setup_guest_registers_state env c1 dt gr).2 =
      { xmm0 := (c1.Xmm0.Low, c1.Xmm0.High),
        xmm1 := (c1.Xmm1.Low, c1.Xmm1.High),
        xmm2 := (c1.Xmm2.Low, c1.Xmm2.High),
        xmm3 := (c1.Xmm3.Low, c1.Xmm3.High),
        xmm4 := (c1.Xmm4.Low, c1.Xmm4.High),
        xmm5 := (c1.Xmm5.Low, c1.Xmm5.High),
        xmm6 := (c1.Xmm6.Low, c1.Xmm6.High),
        xmm7 := (c1.Xmm7.Low, c1.Xmm7.High),
        xmm8 := (c1.Xmm8.Low, c1.Xmm8.High),
        xmm9 := (c1.Xmm9.Low, c1.Xmm9.High),
        xmm10 := (c1.Xmm10.Low, c1.Xmm10.High),
        xmm11 := (c1.Xmm11.Low, c1.Xmm11.High),
        xmm12 := (c1.Xmm12.Low, c1.Xmm12.High),
        xmm13 := (c1.Xmm13.Low, c1.Xmm13.High),
        xmm14 := (c1.Xmm14.Low, c1.Xmm14.High),
        xmm15 := (c1.Xmm15.Low, c1.Xmm15.High),
        rax := c1.Rax, rbx := c1.Rbx, rcx := c1.Rcx, rdx := c1.Rdx,
        rdi := c1.Rdi, rsi := c1.Rsi, rbp := c1.Rbp, r8 := c1.R8,
        r9 := c1.R9, r10 := c1.R10, r11 := c1.R11, r12 := c1.R12,
        r13 := c1.R13, r14 := c1.R14, r15 := c1.R15 } ∧
    (Vmcs.setup_guest_registers_state env c1 dt gr).1 =
      (Vmcs.setup_guest_registers_state env c2 dt gr).1 := by
  refine ⟨?_, rfl, ?_⟩
  · simp [Vmcs.setup_guest_registers_state]
  · simp only [Context.vmcsInputs, List.cons.injEq, and_true] at hvis
    obtain ⟨h1, h2, h3, h4, h5, h6, h7, h8, h9, h10⟩ := hvis
    simp [Vmcs.setup_guest_registers_state, h1, h2, h3, h4, h5, h6, h7,
      h8, h9, h10]

/-- An all-zero captured context, used by concrete witnesses. -/
def ctx0 : Context :=
  ⟨0, 0, 0, 0, 0, 0, 0, 0, 0, 0,
   0, 0, 0, 0, 0, 0, 0, 0, 0, 0, 0, 0, 0, 0, 0,
   ⟨0, 0⟩, ⟨0, 0⟩, ⟨0, 0⟩, ⟨0, 0⟩, ⟨0, 0⟩, ⟨0, 0⟩, ⟨0, 0⟩, ⟨0, 0⟩,
   ⟨0, 0⟩, ⟨0, 0⟩, ⟨0, 0⟩, ⟨0, 0⟩, ⟨0, 0⟩, ⟨0, 0⟩, ⟨0, 0⟩, ⟨0, 0⟩⟩

/-- Fixture context with RAX = 1, otherwise zero. -/
def ctxA : Context := { ctx0 with Rax := 1 }

/-- Fixture context with RAX = 2, otherwise zero; it agrees with `ctxA` on
every field that reaches a VMCS write. -/
def ctxB : Context := { ctx0 with Rax := 2 }

/-- Fixture context whose CS selector is `0x1F8` (GDT index 63, RPL 0),
otherwise zero. -/
def ctxC : Context := { ctx0 with SegCs := 0x1F8 }

/-- An all-zero hardware environment with a trivial descriptor resolver. -/
def env0 : HostEnv := ⟨0, 0, 0, 0, 0, 0, 0, 0, 0, 0, 0, fun _ _ => ⟨0, 0, 0⟩⟩

/-- Zero descriptor tables. -/
def dt0 : DescriptorTables := ⟨⟨0, 0⟩, ⟨0, 0⟩⟩

/-- An all-zero register shadow. -/
def gr0 : GuestRegisters :=
  ⟨(0, 0), (0, 0), (0, 0), (0, 0), (0, 0), (0, 0), (0, 0), (0, 0),
   (0, 0), (0, 0), (0, 0), (0, 0), (0, 0), (0, 0), (0, 0), (0, 0),
   0, 0, 0, 0, 0, 0, 0, 0, 0, 0, 0, 0, 0, 0, 0⟩

/-- Witness for C9: the contexts `ctxA` and `ctxB` differ only in RAX; the
link pointer is written as all ones, the shadow receives the context's
registers, and the two VMCS write lists coincide. -/
theorem c9_witness :
    ctxA.vmcsInputs = ctxB.vmcsInputs ∧
    ((guest.LINK_PTR_FULL, 0xFFFFFFFFFFFFFFFF) ∈
        (Vmcs.setup_guest_registers_state env0 ctxA dt0 gr0).1 ∧
      (Vmcs.setup_guest_registers_state env0 ctxA dt0 gr0).2 =
        { xmm0 := (ctxA.Xmm0.Low, ctxA.Xmm0.High),
          xmm1 := (ctxA.Xmm1.Low, ctxA.Xmm1.High),
          xmm2 := (ctxA.Xmm2.Low, ctxA.Xmm2.High),
          xmm3 := (ctxA.Xmm3.Low, ctxA.Xmm3.High),
          xmm4 := (ctxA.Xmm4.Low, ctxA.Xmm4.High),
          xmm5 := (ctxA.Xmm5.Low, ctxA.Xmm5.High),
          xmm6 := (ctxA.Xmm6.Low, ctxA.Xmm6.High),
          xmm7 := (ctxA.Xmm7.Low, ctxA.Xmm7.High),
          xmm8 := (ctxA.Xmm8.Low, ctxA.Xmm8.High),
          xmm9 := (ctxA.Xmm9.Low, ctxA.Xmm9.High),
          xmm10 := (ctxA.Xmm10.Low, ctxA.Xmm10.High),
          xmm11 := (ctxA.Xmm11.Low, ctxA.Xmm11.High),
          xmm12 := (ctxA.Xmm12.Low, ctxA.Xmm12.High),
          xmm13 := (ctxA.Xmm13.Low, ctxA.Xmm13.High),
          xmm14 := (ctxA.Xmm14.Low, ctxA.Xmm14.High),
          xmm15 := (ctxA.Xmm15.Low, ctxA.Xmm15.High),
          rax := ctxA.Rax, rbx := ctxA.Rbx, rcx := ctxA.Rcx,
          rdx := ctxA.Rdx, rdi := ctxA.Rdi, rsi := ctxA.Rsi,
          rbp := ctxA.Rbp, r8 := ctxA.R8, r9 := ctxA.R9, r10 := ctxA.R10,
          r11 := ctxA.R11, r12 := ctxA.R12, r13 := ctxA.R13,
          r14 := ctxA.R14, r15 := ctxA.R15 } ∧
      (Vmcs.setup_guest_registers_state env0 ctxA dt0 gr0).1 =
        (Vmcs.setup_guest_registers_state env0 ctxB dt0 gr0).1) :=
  ⟨rfl, c9_guest_state_population env0 ctxA ctxB dt0 gr0 rfl⟩

/-- Claim C3, failing input: the source masks host selectors with
`SELECTOR_MASK = 0xF8`, not `0xFFF8`.  At the concrete input CS selector
`0x1F8` the written host CS selector (index 3 of the write list) is `0xF8`,
whereas the claim demands `0x1F8 &&& 0xFFF8 = 0x1F8`: bits 8 and above of
the selector are cleared by the code rather than preserved. -/
theorem c3_host_selector_mask_failing_input :
    SELECTOR_MASK = 0xF8 ∧
    (Vmcs.setup_host_registers_state env0 ctxC dt0).get? 3 =
      some (host.CS_SELECTOR, 0xF8) ∧
    ctxC.SegCs &&& 0xFFF8 = 0x1F8 ∧
    (0xF8 : Nat) ≠ 0x1F8 := by
  refine ⟨rfl, rfl, by decide, by decide⟩

end Hv
